import Mathlib

/-!
Verification of the EduZen chatbot core: the record store (`xlsx.py`), the
tool registry (`agents/tools.py`), the direct function-calling conversation
loop (`agent.py` / `agents/vanilla_agent.py`), and the staged reason-then-act
variant (`agents/react_lg_agent.py`).

The Python code is shallowly embedded: the Excel-file record store becomes a
pure map from filenames to tables, Python dicts become ordered association
lists, `datetime.now()` becomes an explicit `DateTime` argument, and the
external language-model service becomes an oracle parameter returning
`Except`, so that the `try/except` boundaries of the source are visible as
`Except` plumbing.
-/

/-! ### Python dictionaries

A Python dict with string keys and string values, as an insertion-ordered
association list.  `dictSet` is `d[k] = v`: it replaces the value in place
when the key is present (keeping its position) and appends the pair
otherwise. -/

abbrev Dict := List (String × String)

def dictSet : Dict → String → String → Dict
  | [], k, v => [(k, v)]
  | (k', v') :: rest, k, v =>
      if k' = k then (k, v) :: rest else (k', v') :: dictSet rest k v

def dictKeys (d : Dict) : List String := d.map Prod.fst

/-! ### Tabular storage model (`xlsx.py`)

An Excel file holds one table: a column list (header row) and data rows.
Each row is stored as the dict it was written from; a cell is addressed by
column name.  The filesystem is a map from filenames to tables. -/

structure Table where
  columns : List String
  rows : List Dict
deriving DecidableEq

abbrev Store := List (String × Table)

def storeSet : Store → String → Table → Store
  | [], fn, t => [(fn, t)]
  | (fn', t') :: rest, fn, t =>
      if fn' = fn then (fn, t) :: rest else (fn', t') :: storeSet rest fn t

/-- Wall-clock instant passed explicitly where the source calls
`datetime.now()`. -/
structure DateTime where
  year : Nat
  month : Nat
  day : Nat
  hour : Nat
  minute : Nat
  second : Nat
deriving DecidableEq

def pad2 (n : Nat) : String := if n < 10 then "0" ++ toString n else toString n

def pad4 (n : Nat) : String :=
  if n < 10 then "000" ++ toString n
  else if n < 100 then "00" ++ toString n
  else if n < 1000 then "0" ++ toString n
  else toString n

/-- The source's `datetime.now().strftime("%Y-%m-%d %H:%M:%S")`
(`xlsx.py` lines 19, 55, 91). -/
def formatTimestamp (t : DateTime) : String :=
  pad4 t.year ++ "-" ++ pad2 t.month ++ "-" ++ pad2 t.day ++ " " ++
    pad2 t.hour ++ ":" ++ pad2 t.minute ++ ":" ++ pad2 t.second

/-- The source's `pd.DataFrame([data])`: a one-row table whose columns are the
dict's keys in insertion order. -/
def dataFrameOf (data : Dict) : Table :=
  { columns := dictKeys data, rows := [data] }

/-- The source's `pd.concat([existing_df, new_df], ignore_index=True)`: rows
are appended; the column set is the existing columns followed by any new
columns not already present (pandas' outer column union, order-preserving). -/
def concatTables (existing newTbl : Table) : Table :=
  { columns := existing.columns ++ newTbl.columns.filter (fun c => c ∉ existing.columns),
    rows := existing.rows ++ newTbl.rows }

/-- Common body of `save_student_lead` / `save_workshop_lead` / `save_feedback`
(`xlsx.py` lines 17-40, 53-76, 89-112 — the three functions are textually
identical up to the default filename): set `data['timestamp']` to the
formatted current time, wrap the dict in a one-row DataFrame, and either
concat-append to the existing file or create the file from the new frame.
In this pure filesystem model no I/O exception can occur, so the result
flag is the source's `return True` on the success path. -/
def saveRecordToFile (filename : String) (data : Dict) (now : DateTime)
    (fs : Store) : Bool × Store :=
  let data := dictSet data "timestamp" (formatTimestamp now)
  let new_df := dataFrameOf data
  match fs.lookup filename with
  | some existing_df => (true, storeSet fs filename (concatTables existing_df new_df))
  | none => (true, storeSet fs filename new_df)

/-- `xlsx.py` lines 6-40. -/
def save_student_lead (data : Dict) (now : DateTime) (fs : Store)
    (filename : String := "students_leads.xlsx") : Bool × Store :=
  saveRecordToFile filename data now fs

/-- `xlsx.py` lines 42-76. -/
def save_workshop_lead (data : Dict) (now : DateTime) (fs : Store)
    (filename : String := "workshops_leads.xlsx") : Bool × Store :=
  saveRecordToFile filename data now fs

/-- `xlsx.py` lines 78-112. -/
def save_feedback (data : Dict) (now : DateTime) (fs : Store)
    (filename : String := "feedback.xlsx") : Bool × Store :=
  saveRecordToFile filename data now fs

/-- `xlsx.py` lines 114-132: if the file exists, return its table; otherwise
print a message and return `None`.  The read-corruption `except` branch also
returns `None`; in the pure model a present file always reads back. -/
def get_student_leads (fs : Store)
    (filename : String := "students_leads.xlsx") : Option Table :=
  match fs.lookup filename with
  | some df => some df
  | none => none

/-- `xlsx.py` lines 134-152. -/
def get_workshop_leads (fs : Store)
    (filename : String := "workshops_leads.xlsx") : Option Table :=
  match fs.lookup filename with
  | some df => some df
  | none => none

/-- `xlsx.py` lines 154-172. -/
def get_feedback_data (fs : Store)
    (filename : String := "feedback.xlsx") : Option Table :=
  match fs.lookup filename with
  | some df => some df
  | none => none

/-! ### String helpers for the tool handlers

`strContains s sub` is Python's `sub in s`; `strLower` is `str.lower()`
restricted to the per-character case mapping (sufficient for the ASCII
vocabulary the routing rule matches against). -/

def listIsInfixOf (pat : List Char) : List Char → Bool
  | [] => pat.isEmpty
  | c :: t => pat.isPrefixOf (c :: t) || listIsInfixOf pat t

def strContains (s sub : String) : Bool := listIsInfixOf sub.data s.data

def strLower (s : String) : String := String.mk (s.data.map Char.toLower)

/-! ### Tool registry handlers (`agents/tools.py`) -/

/-- `agents/tools.py` lines 6-55 (`record_students_lead`): build the data
dict, save it, and on success route the student to one of the two WhatsApp
community groups from the grade vocabulary (line 45). -/
def record_students_lead (name email language subjects grade location : String)
    (contact_info : String := "") (now : DateTime := {year := 0, month := 0, day := 0, hour := 0, minute := 0, second := 0}) (fs : Store := []) : String × Store :=
  let data : Dict :=
    [("name", name), ("email", email), ("language", language),
     ("subjects", subjects), ("grade", grade), ("location", location),
     ("contact_info", contact_info)]
  let res := save_student_lead data now fs
  if res.1 then
    let whatsapp_group :=
      if strContains (strLower grade) "university" ||
          (["bachelor", "master", "phd", "undergraduate", "graduate"].any
            fun term => strContains (strLower grade) term) then
        "taleb w istez"
      else
        "telmiz w istez"
    ("✅ Student lead recorded successfully! Your information has been saved and you'll be matched with qualified teachers through our '" ++ whatsapp_group ++ "' WhatsApp group. Remember, this service is completely free for students - teachers only pay when they get their first paycheck. You'll be contacted soon with potential matches!", res.2)
  else
    ("❌ Sorry, there was an error recording your information. Please try again or contact our support team.", res.2)

/-- `agents/tools.py` lines 57-113 (`record_workshops_lead`). -/
def record_workshops_lead (organization_name contact_person email phone
    program_type program_name description target_audience duration location
    expected_participants : String) (now : DateTime) (fs : Store) :
    String × Store :=
  let data : Dict :=
    [("organization_name", organization_name), ("contact_person", contact_person),
     ("email", email), ("phone", phone), ("program_type", program_type),
     ("program_name", program_name), ("description", description),
     ("target_audience", target_audience), ("duration", duration),
     ("location", location), ("expected_participants", expected_participants)]
  let res := save_workshop_lead data now fs
  if res.1 then
    ("✅ Workshop/program lead recorded successfully! Your '" ++ program_name ++ "' will be advertised through our 'motadareb w khabeer' WhatsApp group. Our commission is 10% per registered attendee. Our team will contact you within 24 hours to discuss the advertising strategy and timeline.", res.2)
  else
    ("❌ Sorry, there was an error recording your program information. Please try again or contact our support team.", res.2)

/-- `agents/tools.py` lines 115-150 (`record_feedback`), with the source's
parameter defaults `category="general"`, `urgency="medium"`,
`contact_info=""`. -/
def record_feedback (user_question : String) (category : String := "general")
    (urgency : String := "medium") (contact_info : String := "")
    (now : DateTime := {year := 0, month := 0, day := 0, hour := 0, minute := 0, second := 0}) (fs : Store := []) : String × Store :=
  let data : Dict :=
    [("user_question", user_question), ("category", category),
     ("urgency", urgency), ("contact_info", contact_info)]
  let res := save_feedback data now fs
  if res.1 then
    ("✅ Thank you for your feedback! Your question has been recorded and our team will review it. If you provided contact information, we'll get back to you as soon as possible. In the meantime, feel free to ask other questions about our services!", res.2)
  else
    ("❌ Sorry, there was an error recording your feedback. Please try again or contact our support team directly.", res.2)

/-! ### Messages and the model-service boundary

A chat-completions message, a tool call as delivered by the model (its JSON
`arguments` already parsed into a dict — argument parsing is part of the
external wire format), and the external model service as an oracle.  The
oracle's `Bool` argument records whether the tool declarations were attached
to the call (`tools=TOOLS_DEFINITIONS` on the first call, absent on the
second); its `Except.error` outcome models the call raising. -/

structure ToolFunction where
  name : String
  arguments : Dict
deriving DecidableEq

structure ToolCall where
  id : String
  function : ToolFunction
deriving DecidableEq

inductive Msg
  | system (content : String)
  | user (content : String)
  | assistant (content : String) (tool_calls : List ToolCall)
  | tool (tool_call_id : String) (name : String) (content : String)
deriving DecidableEq

structure ModelMessage where
  content : String
  tool_calls : List ToolCall
deriving DecidableEq

abbrev Completion := Bool → List Msg → Except String ModelMessage

/-- Conversation turn as stored in the direct variant's history list. -/
structure Turn where
  user : String
  assistant : String
deriving DecidableEq

/-! ### Tool dispatch (`agents/tools.py` `AVAILABLE_FUNCTIONS`,
`agent.py` lines 100-109)

`AVAILABLE_FUNCTIONS` maps the three declared names to handlers; the loop
calls `AVAILABLE_FUNCTIONS[function_name](**function_args)`.  Keyword
binding follows Python: a missing required parameter or an unexpected
keyword raises (surfacing as `Except.error`, caught by the loop's outer
`try`); an absent optional parameter takes the declared default. -/

def AVAILABLE_FUNCTIONS_names : List String :=
  ["record_students_lead", "record_workshops_lead", "record_feedback"]

def requireArg (args : Dict) (k : String) : Except String String :=
  match args.lookup k with
  | some v => Except.ok v
  | none => Except.error ("missing 1 required positional argument: " ++ k)

def optArg (args : Dict) (k d : String) : String := (args.lookup k).getD d

def checkKeywords (params : List String) (args : Dict) : Except String Unit :=
  if args.all (fun kv => params.contains kv.1) then Except.ok ()
  else Except.error "got an unexpected keyword argument"

def studentsLeadParams : List String :=
  ["name", "email", "language", "subjects", "grade", "location", "contact_info"]

def workshopsLeadParams : List String :=
  ["organization_name", "contact_person", "email", "phone", "program_type",
   "program_name", "description", "target_audience", "duration", "location",
   "expected_participants"]

def feedbackParams : List String :=
  ["user_question", "category", "urgency", "contact_info"]

def callAvailableFunction (function_name : String) (args : Dict)
    (now : DateTime) (fs : Store) : Except String (String × Store) :=
  if function_name = "record_students_lead" then do
    let _ ← checkKeywords studentsLeadParams args
    let name ← requireArg args "name"
    let email ← requireArg args "email"
    let language ← requireArg args "language"
    let subjects ← requireArg args "subjects"
    let grade ← requireArg args "grade"
    let location ← requireArg args "location"
    Except.ok (record_students_lead name email language subjects grade location
      (optArg args "contact_info" "") now fs)
  else if function_name = "record_workshops_lead" then do
    let _ ← checkKeywords workshopsLeadParams args
    let organization_name ← requireArg args "organization_name"
    let contact_person ← requireArg args "contact_person"
    let email ← requireArg args "email"
    let phone ← requireArg args "phone"
    let program_type ← requireArg args "program_type"
    let program_name ← requireArg args "program_name"
    let description ← requireArg args "description"
    let target_audience ← requireArg args "target_audience"
    let duration ← requireArg args "duration"
    let location ← requireArg args "location"
    let expected_participants ← requireArg args "expected_participants"
    Except.ok (record_workshops_lead organization_name contact_person email
      phone program_type program_name description target_audience duration
      location expected_participants now fs)
  else if function_name = "record_feedback" then do
    let _ ← checkKeywords feedbackParams args
    let user_question ← requireArg args "user_question"
    Except.ok (record_feedback user_question (optArg args "category" "general")
      (optArg args "urgency" "medium") (optArg args "contact_info" "") now fs)
  else
    Except.error ("KeyError: " ++ function_name)

namespace EduZenAgent

/-- `agent.py` lines 64-73 (identically `agents/vanilla_agent.py` lines
53-62): the message list sent to the model — system prompt, then each
history exchange replayed as a user/assistant pair, then the new message. -/
def buildMessages (system_prompt : String) (history : List Turn)
    (message : String) : List Msg :=
  Msg.system system_prompt ::
    (history.flatMap fun exchange =>
      [Msg.user exchange.user, Msg.assistant exchange.assistant []]) ++
    [Msg.user message]

/-- `agent.py` lines 95-109: the loop over the model's tool calls.  A name
present in `AVAILABLE_FUNCTIONS` is executed and its status string appended
as a tool-result message; an unknown name is skipped with no message, no
execution and no error.  A raising handler propagates (with the store as
already mutated) to the enclosing `try`. -/
def processToolCalls (now : DateTime) :
    Store → List ToolCall → Except (String × Store) (List Msg × Store)
  | st, [] => Except.ok ([], st)
  | st, tool_call :: rest =>
      if AVAILABLE_FUNCTIONS_names.contains tool_call.function.name then
        match callAvailableFunction tool_call.function.name
            tool_call.function.arguments now st with
        | Except.error e => Except.error (e, st)
        | Except.ok (function_response, st') =>
            match processToolCalls now st' rest with
            | Except.error es => Except.error es
            | Except.ok (msgs, st'') =>
                Except.ok (Msg.tool tool_call.id tool_call.function.name
                  function_response :: msgs, st'')
      else
        processToolCalls now st rest

/-- The body of the `try` block of `agent.py` lines 75-132: first completion
with tools attached; if it requests no tools its content is the reply;
otherwise the assistant message and the tool results are appended and a
second completion (no tools) produces the reply.  `Except.error` carries the
raised message together with the store as mutated so far. -/
def chatTry (system_prompt : String) (create : Completion) (now : DateTime)
    (st : Store) (message : String) (history : List Turn) :
    Except (String × Store) (String × Store) :=
  let messages := buildMessages system_prompt history message
  match create true messages with
  | Except.error e => Except.error (e, st)
  | Except.ok response_message =>
      if response_message.tool_calls.isEmpty then
        Except.ok (response_message.content, st)
      else
        let messages := messages ++
          [Msg.assistant response_message.content response_message.tool_calls]
        match processToolCalls now st response_message.tool_calls with
        | Except.error es => Except.error es
        | Except.ok (toolMsgs, st') =>
            match create false (messages ++ toolMsgs) with
            | Except.error e => Except.error (e, st')
            | Except.ok final_response => Except.ok (final_response.content, st')

/-- `agent.py` line 135 (identically `agents/vanilla_agent.py` line 125). -/
def errorMessage (e : String) : String :=
  "I apologize, but I encountered an error: " ++ e ++ ". Please try again or contact our support team."

/-- `agent.py` lines 50-142 (`EduZenAgent.chat`, identical to
`EduZenVanillaAgent.chat` in `agents/vanilla_agent.py` lines 49-132 up to
how the handler is applied): returns the reply, the updated history and the
resulting store.  Both the success path (lines 126-132) and the `except`
path (lines 134-142) append exactly one `{user, assistant}` exchange to a
copy of the history. -/
def chat (system_prompt : String) (create : Completion) (now : DateTime)
    (st : Store) (message : String) (history : List Turn) :
    String × List Turn × Store :=
  match chatTry system_prompt create now st message history with
  | Except.ok (agent_response, st') =>
      (agent_response, history ++ [{user := message, assistant := agent_response}], st')
  | Except.error (e, st') =>
      let error_message := errorMessage e
      (error_message, history ++ [{user := message, assistant := error_message}], st')

end EduZenAgent

/-! ### Staged (reason-then-act) variant (`agents/react_lg_agent.py`)

LangGraph messages: the graph state's message list mixes human messages,
assistant (`AIMessage`) messages — some tagged as reasoning traces by the
`"THINKING: "` prefix added in `reasoning_node` (line 99) — and tool-result
messages appended by the `ToolNode`.  The graph execution itself
(`self.graph.invoke`) is external langgraph machinery driving external model
calls, so the completed run's message list is a parameter of the embedded
reply extraction. -/

inductive LMsg
  | human (content : String)
  | ai (content : String) (tool_calls : List ToolCall)
  | toolResult (content : String)
  | sys (content : String)
deriving DecidableEq

/-- Python's `str.startswith`, over the character data. -/
def strStartsWith (s p : String) : Bool := p.data.isPrefixOf s.data

namespace EduZenReActAgent

/-- An `AIMessage` whose content does not carry the `"THINKING:"`
reasoning-trace tag (`react_lg_agent.py` line 176). -/
def isSubstantiveAI : LMsg → Bool
  | LMsg.ai content _ => !strStartsWith content "THINKING:"
  | _ => false

/-- `react_lg_agent.py` lines 165-181, the reply extraction of `chat` applied
to `result["messages"]`: take the last message; if it is an `AIMessage` whose
content starts with `"THINKING:"`, scan the messages in reverse for the last
`AIMessage` not so tagged (keeping the tagged content when none exists); a
non-`AIMessage` last message yields the fixed apology line.  The returned
value is the whole result of `chat`: a single string, with no accompanying
reasoning-steps list. -/
def chatReply (result_messages : List LMsg) : String :=
  match result_messages.getLast? with
  | some (LMsg.ai content _) =>
      if strStartsWith content "THINKING:" then
        match result_messages.reverse.find? isSubstantiveAI with
        | some (LMsg.ai c _) => c
        | _ => content
      else content
  | _ => "I apologize, but I encountered an issue processing your request. Please try again."

/-- `react_lg_agent.py` lines 186-211 (`chat_with_history`): the reply from
`chat` over the run result, paired with the history copy extended by the one
new `{user, assistant}` exchange.  Nothing else is returned. -/
def chat_with_history (result_messages : List LMsg) (message : String)
    (history : List Turn) : String × List Turn :=
  let response := chatReply result_messages
  (response, history ++ [{user := message, assistant := response}])

/-- Checkpointed conversational state of the `MemorySaver`: thread id to the
thread's stored message sequence. -/
abbrev CheckpointStore := List (String × List LMsg)

/-- `react_lg_agent.py` lines 221-229 (`clear_history`): the body only
executes `return True` — the comment in the source notes `MemorySaver`
has no direct clear method — so the checkpoint store is untouched. -/
def clear_history (checkpoints : CheckpointStore)
    (thread_id : String := "default") : Bool × CheckpointStore :=
  (true, checkpoints)

end EduZenReActAgent

/-! ### Python list aliasing model for the history update

To state the frame property of `chat`'s history update (`agent.py` lines
125-131 and 136-141: `updated_history = history.copy()`,
`updated_history.append({...})`), Python lists are modelled as references
into a heap of list cells: `copy` allocates a fresh cell with the same
contents, `append` mutates one cell in place. -/

structure PyHeap where
  cells : List (List Turn)
deriving DecidableEq

def PyHeap.get (h : PyHeap) (r : Nat) : List Turn := (h.cells[r]?).getD []

/-- `history.copy()`: allocate a fresh cell holding the same turns; the
result is the new cell's reference. -/
def PyHeap.copyList (h : PyHeap) (r : Nat) : PyHeap × Nat :=
  ({cells := h.cells ++ [h.get r]}, h.cells.length)

/-- `lst.append(turn)`: in-place mutation of the referenced cell. -/
def PyHeap.appendTurn (h : PyHeap) (r : Nat) (t : Turn) : PyHeap :=
  {cells := h.cells.set r (h.get r ++ [t])}

namespace EduZenAgent

/-- `agent.py` lines 126-130 (and identically 137-141): build the updated
history from the caller's list — `updated_history = history.copy()` then
`updated_history.append({"user": message, "assistant": agent_response})` —
returning the heap after both steps and the reference to the fresh list. -/
def updateHistory (h : PyHeap) (history : Nat)
    (message agent_response : String) : PyHeap × Nat :=
  let res := h.copyList history
  (res.1.appendTurn res.2 {user := message, assistant := agent_response}, res.2)

end EduZenAgent

/-! ### Sequential-append harness and the fixed column sets

`saveAll` iterates one of the save functions over a batch of records, each
with its own write instant, threading the filesystem — the "write N records
sequentially" scenario of the spec's testable properties.  The three field
lists are the key sets of the data dicts built by the tool handlers
(`agents/tools.py` lines 32-40, 91-103, 135-140), which match the header
sets of `xlsx.py`'s `initialize_excel_files` minus the timestamp column. -/

def saveAll (saveFn : Dict → DateTime → Store → Bool × Store) :
    List (Dict × DateTime) → Store → List Bool × Store
  | [], fs => ([], fs)
  | (d, t) :: rest, fs =>
      let r := saveFn d t fs
      let r' := saveAll saveFn rest r.2
      (r.1 :: r'.1, r'.2)

def studentFields : List String :=
  ["name", "email", "language", "subjects", "grade", "location", "contact_info"]

def workshopFields : List String :=
  ["organization_name", "contact_person", "email", "phone", "program_type",
   "program_name", "description", "target_audience", "duration", "location",
   "expected_participants"]

def feedbackFields : List String :=
  ["user_question", "category", "urgency", "contact_info"]

/-! ### Helper lemmas -/

lemma save_student_lead_fst (data : Dict) (now : DateTime) (fs : Store) :
    (save_student_lead data now fs).1 = true := by
  unfold save_student_lead saveRecordToFile
  cases fs.lookup "students_leads.xlsx" <;> rfl

lemma storeSet_lookup_self (fs : Store) (fn : String) (t : Table) :
    (storeSet fs fn t).lookup fn = some t := by
  induction fs with
  | nil => simp [storeSet, List.lookup]
  | cons p rest ih =>
      obtain ⟨fn', t'⟩ := p
      by_cases h : fn' = fn
      · simp [storeSet, h, List.lookup]
      · have hbe : (fn == fn') = false := beq_eq_false_iff_ne.mpr (Ne.symm h)
        simp [storeSet, h, List.lookup, hbe, ih]

lemma dictSet_lookup_self (d : Dict) (k v : String) :
    (dictSet d k v).lookup k = some v := by
  induction d with
  | nil => simp [dictSet, List.lookup]
  | cons p rest ih =>
      obtain ⟨k', v'⟩ := p
      by_cases h : k' = k
      · simp [dictSet, h, List.lookup]
      · have hbe : (k == k') = false := beq_eq_false_iff_ne.mpr (Ne.symm h)
        simp [dictSet, h, List.lookup, hbe, ih]

lemma dictSet_lookup_ne (d : Dict) (k k' v : String) (h : k' ≠ k) :
    (dictSet d k v).lookup k' = d.lookup k' := by
  induction d with
  | nil => simp [dictSet, List.lookup, beq_eq_false_iff_ne.mpr h]
  | cons p rest ih =>
      obtain ⟨k'', v''⟩ := p
      by_cases hk : k'' = k
      · subst hk
        simp [dictSet, List.lookup, beq_eq_false_iff_ne.mpr h]
      · simp [dictSet, hk, List.lookup, ih]

lemma dictKeys_dictSet_of_not_mem (d : Dict) (k v : String)
    (h : k ∉ dictKeys d) : dictKeys (dictSet d k v) = dictKeys d ++ [k] := by
  induction d with
  | nil => simp [dictSet, dictKeys]
  | cons p rest ih =>
      obtain ⟨k', v'⟩ := p
      simp only [dictKeys, List.map_cons, List.mem_cons, not_or] at h
      have hne : k' ≠ k := fun hh => h.1 hh.symm
      have ih' := ih h.2
      simp only [dictKeys] at ih'
      simp [dictSet, hne, dictKeys, ih']

lemma formatTimestamp_ne_empty (t : DateTime) : formatTimestamp t ≠ "" := by
  intro h
  have hl : (formatTimestamp t).length = 0 := by rw [h]; rfl
  unfold formatTimestamp at hl
  simp [String.length_append, show ("-" : String).length = 1 from rfl] at hl

lemma filter_not_mem_self (C : List String) :
    (C.filter fun c => c ∉ C) = [] := by
  simp [List.filter_eq_nil_iff]

lemma saveRecordToFile_lookup (fn : String) (d : Dict) (now : DateTime)
    (fs : Store) :
    ∃ tbl, ((saveRecordToFile fn d now fs).2.lookup fn) = some tbl ∧
      tbl.rows.getLast? = some (dictSet d "timestamp" (formatTimestamp now)) := by
  unfold saveRecordToFile
  cases h : fs.lookup fn with
  | none =>
      refine ⟨dataFrameOf (dictSet d "timestamp" (formatTimestamp now)), ?_, rfl⟩
      simp [h, storeSet_lookup_self]
  | some t =>
      refine ⟨concatTables t (dataFrameOf (dictSet d "timestamp" (formatTimestamp now))),
        ?_, ?_⟩
      · simp [h, storeSet_lookup_self]
      · simp [concatTables, dataFrameOf]

lemma saveAll_saveRecordToFile (fn : String) (C : List String) :
    ∀ (batch : List (Dict × DateTime)) (fs : Store) (R : List Dict),
    fs.lookup fn = some ⟨C, R⟩ →
    (∀ p ∈ batch, dictKeys (dictSet p.1 "timestamp" (formatTimestamp p.2)) = C) →
    (saveAll (saveRecordToFile fn) batch fs).1 = batch.map (fun _ => true) ∧
    ((saveAll (saveRecordToFile fn) batch fs).2.lookup fn) =
      some ⟨C, R ++ batch.map (fun p => dictSet p.1 "timestamp" (formatTimestamp p.2))⟩ := by
  intro batch
  induction batch with
  | nil => intro fs R hfs _; simpa [saveAll] using hfs
  | cons p rest ih =>
      intro fs R hfs hwf
      obtain ⟨d, t⟩ := p
      have hrow : dictKeys (dictSet d "timestamp" (formatTimestamp t)) = C :=
        hwf (d, t) (List.mem_cons_self _ _)
      have hstep : (saveRecordToFile fn d t fs).2.lookup fn =
          some ⟨C, R ++ [dictSet d "timestamp" (formatTimestamp t)]⟩ := by
        unfold saveRecordToFile
        rw [hfs]
        simp only [storeSet_lookup_self, concatTables, dataFrameOf, hrow]
        rw [filter_not_mem_self]
        simp
      have hfst : (saveRecordToFile fn d t fs).1 = true := by
        unfold saveRecordToFile
        rw [hfs]
      obtain ⟨ih1, ih2⟩ := ih (saveRecordToFile fn d t fs).2
        (R ++ [dictSet d "timestamp" (formatTimestamp t)]) hstep
        (fun q hq => hwf q (List.mem_cons_of_mem _ hq))
      refine ⟨?_, ?_⟩
      · simp [saveAll, hfst, ih1]
      · simp only [saveAll, ih2, List.map_cons, List.append_assoc, List.singleton_append]

lemma saveAll_from_absent (fn : String) (F : List String)
    (hT : "timestamp" ∉ F) :
    ∀ (batch : List (Dict × DateTime)) (fs : Store), batch ≠ [] →
    fs.lookup fn = none →
    (∀ p ∈ batch, dictKeys p.1 = F) →
    (saveAll (saveRecordToFile fn) batch fs).1 = batch.map (fun _ => true) ∧
    ((saveAll (saveRecordToFile fn) batch fs).2.lookup fn) =
      some ⟨F ++ ["timestamp"],
        batch.map (fun p => dictSet p.1 "timestamp" (formatTimestamp p.2))⟩ := by
  intro batch fs hne hnone hwf
  match batch with
  | [] => exact absurd rfl hne
  | (d, t) :: rest =>
      have hkeys : ∀ q : Dict × DateTime, q ∈ (d, t) :: rest →
          dictKeys (dictSet q.1 "timestamp" (formatTimestamp q.2)) = F ++ ["timestamp"] := by
        intro q hq
        have h1 : "timestamp" ∉ dictKeys q.1 := by rw [hwf q hq]; exact hT
        rw [dictKeys_dictSet_of_not_mem _ _ _ h1, hwf q hq]
      have hstep : (saveRecordToFile fn d t fs).2.lookup fn =
          some ⟨F ++ ["timestamp"], [dictSet d "timestamp" (formatTimestamp t)]⟩ := by
        unfold saveRecordToFile
        rw [hnone]
        simp only [storeSet_lookup_self, dataFrameOf]
        rw [hkeys (d, t) (List.mem_cons_self _ _)]
      have hfst : (saveRecordToFile fn d t fs).1 = true := by
        unfold saveRecordToFile
        rw [hnone]
      obtain ⟨ih1, ih2⟩ := saveAll_saveRecordToFile fn (F ++ ["timestamp"]) rest
        (saveRecordToFile fn d t fs).2 [dictSet d "timestamp" (formatTimestamp t)]
        hstep (fun q hq => hkeys q (List.mem_cons_of_mem _ hq))
      refine ⟨?_, ?_⟩
      · simp [saveAll, hfst, ih1]
      · simp only [saveAll, ih2, List.map_cons, List.singleton_append]

lemma processToolCalls_feedback_single (now : DateTime) (st : Store)
    (q tcid : String) :
    EduZenAgent.processToolCalls now st
      [ToolCall.mk tcid (ToolFunction.mk "record_feedback" [("user_question", q)])] =
      Except.ok ([Msg.tool tcid "record_feedback"
          (record_feedback q "general" "medium" "" now st).1],
        (record_feedback q "general" "medium" "" now st).2) := rfl

/-! ### Claim theorems -/

/-- C1: in the direct variant, when the model call raises, `chat` does not
propagate the exception: it returns the fixed apologetic reply (which begins
with "I apologize"), and the returned history is the input history with
exactly one `{user, assistant}` turn appended, so the turn count grows by
exactly one and the store is untouched. -/
theorem C1_error_containment (system_prompt : String) (create : Completion)
    (now : DateTime) (st : Store) (message : String) (history : List Turn)
    (e : String)
    (h : create true (EduZenAgent.buildMessages system_prompt history message) =
      Except.error e) :
    EduZenAgent.chat system_prompt create now st message history =
      (EduZenAgent.errorMessage e,
        history ++ [Turn.mk message (EduZenAgent.errorMessage e)], st) ∧
    (∃ rest, EduZenAgent.errorMessage e = "I apologize" ++ rest) ∧
    (history ++ [Turn.mk message (EduZenAgent.errorMessage e)]).length =
      history.length + 1 := by
  refine ⟨?_, ?_, by simp⟩
  · unfold EduZenAgent.chat EduZenAgent.chatTry
    simp only [h]
  · refine ⟨", but I encountered an error: " ++ e ++ ". Please try again or contact our support team.", ?_⟩
    unfold EduZenAgent.errorMessage
    simp only [show ("I apologize, but I encountered an error: " : String) =
      "I apologize" ++ ", but I encountered an error: " from rfl, String.append_assoc]

/-- Witness for C1 at a concrete failing oracle. -/
theorem C1_error_containment_witness :
    EduZenAgent.chat "persona" (fun _ _ => Except.error "boom")
      ⟨2025, 1, 2, 3, 4, 5⟩ [] "hello" [] =
      (EduZenAgent.errorMessage "boom",
        ([] : List Turn) ++ [Turn.mk "hello" (EduZenAgent.errorMessage "boom")], []) ∧
    (∃ rest, EduZenAgent.errorMessage "boom" = "I apologize" ++ rest) ∧
    (([] : List Turn) ++ [Turn.mk "hello" (EduZenAgent.errorMessage "boom")]).length =
      ([] : List Turn).length + 1 :=
  C1_error_containment "persona" (fun _ _ => Except.error "boom")
    ⟨2025, 1, 2, 3, 4, 5⟩ [] "hello" [] "boom" rfl

/-- C2: when the grade string contains (case-insensitively) any of
"university", "bachelor", "master", "phd", "undergraduate", "graduate",
the status string returned by `record_students_lead` names the
university-track community group "taleb w istez"; for every other grade it
names the K-12-track group "telmiz w istez". -/
theorem C2_student_lead_routing (name email language subjects grade location
    contact_info : String) (now : DateTime) (fs : Store) :
    ((["university", "bachelor", "master", "phd", "undergraduate", "graduate"].any
        fun term => strContains (strLower grade) term) = true →
      strContains (record_students_lead name email language subjects grade
        location contact_info now fs).1 "taleb w istez" = true) ∧
    ((["university", "bachelor", "master", "phd", "undergraduate", "graduate"].any
        fun term => strContains (strLower grade) term) = false →
      strContains (record_students_lead name email language subjects grade
        location contact_info now fs).1 "telmiz w istez" = true) := by
  have hsave := save_student_lead_fst
    [("name", name), ("email", email), ("language", language),
     ("subjects", subjects), ("grade", grade), ("location", location),
     ("contact_info", contact_info)] now fs
  constructor
  · intro h
    have hcond : (strContains (strLower grade) "university" ||
        (["bachelor", "master", "phd", "undergraduate", "graduate"].any
          fun term => strContains (strLower grade) term)) = true := by
      simpa using h
    simp only [record_students_lead, hsave, hcond, if_true]
    decide
  · intro h
    have hcond : (strContains (strLower grade) "university" ||
        (["bachelor", "master", "phd", "undergraduate", "graduate"].any
          fun term => strContains (strLower grade) term)) = false := by
      simpa using h
    simp only [record_students_lead, hsave, hcond, if_true]
    decide

/-- Witness for C2: one university-level grade and one K-12 grade. -/
theorem C2_student_lead_routing_witness :
    strContains (record_students_lead "Aya" "a@x.com" "English" "Math"
      "University - Bachelor in Engineering" "Beirut" ""
      ⟨2025, 1, 2, 3, 4, 5⟩ []).1 "taleb w istez" = true ∧
    strContains (record_students_lead "Omar" "o@x.com" "Arabic" "Physics"
      "Grade 10" "Tripoli" "" ⟨2025, 1, 2, 3, 4, 5⟩ []).1 "telmiz w istez" = true :=
  ⟨(C2_student_lead_routing "Aya" "a@x.com" "English" "Math"
      "University - Bachelor in Engineering" "Beirut" "" ⟨2025, 1, 2, 3, 4, 5⟩ []).1
      (by decide),
   (C2_student_lead_routing "Omar" "o@x.com" "Arabic" "Physics"
      "Grade 10" "Tripoli" "" ⟨2025, 1, 2, 3, 4, 5⟩ []).2 (by decide)⟩

/-- C3: appending N ≥ 1 well-formed records of one kind sequentially from an
absent table returns success for every write, creates the table with the
correct column set (the record fields plus the trailing timestamp column) on
the first write, and a subsequent read returns exactly the N records in
write order, each carrying the supplied field values unchanged plus a
non-empty write-time timestamp. -/
theorem C3_append_accumulates :
    (∀ (batch : List (Dict × DateTime)) (fs : Store), batch ≠ [] →
      fs.lookup "students_leads.xlsx" = none →
      (∀ p ∈ batch, dictKeys p.1 = studentFields) →
      (saveAll (fun d t s => save_student_lead d t s) batch fs).1 =
        batch.map (fun _ => true) ∧
      get_student_leads (saveAll (fun d t s => save_student_lead d t s) batch fs).2 =
        some ⟨studentFields ++ ["timestamp"],
          batch.map (fun p => dictSet p.1 "timestamp" (formatTimestamp p.2))⟩ ∧
      (∀ p ∈ batch,
        (dictSet p.1 "timestamp" (formatTimestamp p.2)).lookup "timestamp" =
          some (formatTimestamp p.2) ∧ formatTimestamp p.2 ≠ "" ∧
        ∀ k ∈ studentFields,
          (dictSet p.1 "timestamp" (formatTimestamp p.2)).lookup k = p.1.lookup k)) ∧
    (∀ (batch : List (Dict × DateTime)) (fs : Store), batch ≠ [] →
      fs.lookup "workshops_leads.xlsx" = none →
      (∀ p ∈ batch, dictKeys p.1 = workshopFields) →
      (saveAll (fun d t s => save_workshop_lead d t s) batch fs).1 =
        batch.map (fun _ => true) ∧
      get_workshop_leads (saveAll (fun d t s => save_workshop_lead d t s) batch fs).2 =
        some ⟨workshopFields ++ ["timestamp"],
          batch.map (fun p => dictSet p.1 "timestamp" (formatTimestamp p.2))⟩) ∧
    (∀ (batch : List (Dict × DateTime)) (fs : Store), batch ≠ [] →
      fs.lookup "feedback.xlsx" = none →
      (∀ p ∈ batch, dictKeys p.1 = feedbackFields) →
      (saveAll (fun d t s => save_feedback d t s) batch fs).1 =
        batch.map (fun _ => true) ∧
      get_feedback_data (saveAll (fun d t s => save_feedback d t s) batch fs).2 =
        some ⟨feedbackFields ++ ["timestamp"],
          batch.map (fun p => dictSet p.1 "timestamp" (formatTimestamp p.2))⟩) := by
  refine ⟨?_, ?_, ?_⟩
  · intro batch fs hne hnone hwf
    have heta : (fun d t s => save_student_lead d t s) =
        saveRecordToFile "students_leads.xlsx" := rfl
    obtain ⟨h1, h2⟩ := saveAll_from_absent "students_leads.xlsx" studentFields
      (by decide) batch fs hne hnone hwf
    rw [heta]
    refine ⟨h1, by simp [get_student_leads, h2], ?_⟩
    intro p hp
    refine ⟨dictSet_lookup_self _ _ _, formatTimestamp_ne_empty _, ?_⟩
    intro k hk
    have : k ≠ "timestamp" := by fin_cases hk <;> decide
    exact dictSet_lookup_ne _ _ _ _ this
  · intro batch fs hne hnone hwf
    have heta : (fun d t s => save_workshop_lead d t s) =
        saveRecordToFile "workshops_leads.xlsx" := rfl
    obtain ⟨h1, h2⟩ := saveAll_from_absent "workshops_leads.xlsx" workshopFields
      (by decide) batch fs hne hnone hwf
    rw [heta]
    exact ⟨h1, by simp [get_workshop_leads, h2]⟩
  · intro batch fs hne hnone hwf
    have heta : (fun d t s => save_feedback d t s) =
        saveRecordToFile "feedback.xlsx" := rfl
    obtain ⟨h1, h2⟩ := saveAll_from_absent "feedback.xlsx" feedbackFields
      (by decide) batch fs hne hnone hwf
    rw [heta]
    exact ⟨h1, by simp [get_feedback_data, h2]⟩

/-- Witness for C3: two concrete student leads written into an empty store. -/
theorem C3_append_accumulates_witness :
    (saveAll (fun d t s => save_student_lead d t s)
        [([("name", "Aya"), ("email", "a@x.com"), ("language", "English"),
           ("subjects", "Math"), ("grade", "Grade 9"), ("location", "Beirut"),
           ("contact_info", "")], (⟨2025, 1, 2, 3, 4, 5⟩ : DateTime)),
         ([("name", "Omar"), ("email", "o@x.com"), ("language", "Arabic"),
           ("subjects", "Physics"), ("grade", "Grade 11"), ("location", "Tripoli"),
           ("contact_info", "+961")], (⟨2025, 1, 2, 3, 4, 6⟩ : DateTime))] []).1 =
      [true, true] ∧
    get_student_leads (saveAll (fun d t s => save_student_lead d t s)
        [([("name", "Aya"), ("email", "a@x.com"), ("language", "English"),
           ("subjects", "Math"), ("grade", "Grade 9"), ("location", "Beirut"),
           ("contact_info", "")], (⟨2025, 1, 2, 3, 4, 5⟩ : DateTime)),
         ([("name", "Omar"), ("email", "o@x.com"), ("language", "Arabic"),
           ("subjects", "Physics"), ("grade", "Grade 11"), ("location", "Tripoli"),
           ("contact_info", "+961")], (⟨2025, 1, 2, 3, 4, 6⟩ : DateTime))] []).2 =
      some ⟨studentFields ++ ["timestamp"],
        [dictSet [("name", "Aya"), ("email", "a@x.com"), ("language", "English"),
           ("subjects", "Math"), ("grade", "Grade 9"), ("location", "Beirut"),
           ("contact_info", "")] "timestamp" (formatTimestamp ⟨2025, 1, 2, 3, 4, 5⟩),
         dictSet [("name", "Omar"), ("email", "o@x.com"), ("language", "Arabic"),
           ("subjects", "Physics"), ("grade", "Grade 11"), ("location", "Tripoli"),
           ("contact_info", "+961")] "timestamp" (formatTimestamp ⟨2025, 1, 2, 3, 4, 6⟩)]⟩ := by
  obtain ⟨h1, h2, -⟩ := C3_append_accumulates.1
    [([("name", "Aya"), ("email", "a@x.com"), ("language", "English"),
       ("subjects", "Math"), ("grade", "Grade 9"), ("location", "Beirut"),
       ("contact_info", "")], (⟨2025, 1, 2, 3, 4, 5⟩ : DateTime)),
     ([("name", "Omar"), ("email", "o@x.com"), ("language", "Arabic"),
       ("subjects", "Physics"), ("grade", "Grade 11"), ("location", "Tripoli"),
       ("contact_info", "+961")], (⟨2025, 1, 2, 3, 4, 6⟩ : DateTime))] []
    (by decide) rfl (by decide)
  exact ⟨h1, h2⟩

/-- C4 counterexample: on a never-written table the readers return `none` —
the same sentinel the source uses for read failures — not an empty sequence
of records.  The claim "returns an empty sequence of records" is false at
the empty filesystem: there is no table value (in particular none with zero
rows) in the result. -/
theorem C4_counterexample :
    get_student_leads [] = none ∧ get_workshop_leads [] = none ∧
    get_feedback_data [] = none ∧
    ¬ (∃ t : Table, get_student_leads [] = some t ∧ t.rows = []) := by
  refine ⟨rfl, rfl, rfl, ?_⟩
  rintro ⟨t, ht, -⟩
  exact Option.noConfusion ht

/-- C4 amended: calling the readers on a table that was never written
returns `None` (the source's shared absent-or-failed sentinel, after
printing a log line) rather than raising; it does not return an empty
record sequence. -/
theorem C4_absent_table_reads_none (fs : Store)
    (h1 : fs.lookup "students_leads.xlsx" = none)
    (h2 : fs.lookup "workshops_leads.xlsx" = none)
    (h3 : fs.lookup "feedback.xlsx" = none) :
    get_student_leads fs = none ∧ get_workshop_leads fs = none ∧
    get_feedback_data fs = none := by
  refine ⟨?_, ?_, ?_⟩ <;>
    simp [get_student_leads, get_workshop_leads, get_feedback_data, h1, h2, h3]

/-- Witness for C4 amended at a store holding only an unrelated file. -/
theorem C4_absent_table_reads_none_witness :
    get_student_leads [("notes.xlsx", ⟨["a"], []⟩)] = none ∧
    get_workshop_leads [("notes.xlsx", ⟨["a"], []⟩)] = none ∧
    get_feedback_data [("notes.xlsx", ⟨["a"], []⟩)] = none :=
  C4_absent_table_reads_none [("notes.xlsx", ⟨["a"], []⟩)] rfl rfl rfl

/-- C5: when the model requests `record_feedback` with only `user_question`
supplied, the engine invokes the feedback handler with category "general",
urgency "medium" and empty contact info (the declared defaults), the
handler's status string is appended as a tool-result message to the sequence
passed to the second completion call, and that call's content becomes the
final reply. -/
theorem C5_feedback_defaults_roundtrip (system_prompt : String)
    (create : Completion) (now : DateTime) (st : Store) (message : String)
    (history : List Turn) (q tcid content0 : String) (final : ModelMessage)
    (h1 : create true (EduZenAgent.buildMessages system_prompt history message) =
      Except.ok (ModelMessage.mk content0
        [ToolCall.mk tcid (ToolFunction.mk "record_feedback" [("user_question", q)])]))
    (h2 : create false (EduZenAgent.buildMessages system_prompt history message ++
        [Msg.assistant content0
          [ToolCall.mk tcid (ToolFunction.mk "record_feedback" [("user_question", q)])]] ++
        [Msg.tool tcid "record_feedback"
          (record_feedback q "general" "medium" "" now st).1]) = Except.ok final) :
    EduZenAgent.chat system_prompt create now st message history =
      (final.content, history ++ [Turn.mk message final.content],
        (record_feedback q "general" "medium" "" now st).2) ∧
    Msg.tool tcid "record_feedback"
        (record_feedback q "general" "medium" "" now st).1 ∈
      (EduZenAgent.buildMessages system_prompt history message ++
        [Msg.assistant content0
          [ToolCall.mk tcid (ToolFunction.mk "record_feedback" [("user_question", q)])]] ++
        [Msg.tool tcid "record_feedback"
          (record_feedback q "general" "medium" "" now st).1]) := by
  constructor
  · unfold EduZenAgent.chat EduZenAgent.chatTry
    simp only [h1, processToolCalls_feedback_single, List.isEmpty_cons,
      Bool.false_eq_true, if_false, h2]
  · exact List.mem_append_right _ (List.mem_singleton_self _)

/-- Witness for C5 with a concrete two-step oracle. -/
theorem C5_feedback_defaults_roundtrip_witness :
    EduZenAgent.chat "p"
      (fun withTools _ => if withTools then
        Except.ok (ModelMessage.mk ""
          [ToolCall.mk "call_1" (ToolFunction.mk "record_feedback"
            [("user_question", "What is X?")])])
      else Except.ok (ModelMessage.mk "Recorded!" []))
      ⟨2025, 1, 2, 3, 4, 5⟩ [] "hi" [] =
      ((ModelMessage.mk "Recorded!" []).content,
        ([] : List Turn) ++ [Turn.mk "hi" (ModelMessage.mk "Recorded!" []).content],
        (record_feedback "What is X?" "general" "medium" "" ⟨2025, 1, 2, 3, 4, 5⟩ []).2) ∧
    Msg.tool "call_1" "record_feedback"
        (record_feedback "What is X?" "general" "medium" "" ⟨2025, 1, 2, 3, 4, 5⟩ []).1 ∈
      (EduZenAgent.buildMessages "p" [] "hi" ++
        [Msg.assistant ""
          [ToolCall.mk "call_1" (ToolFunction.mk "record_feedback"
            [("user_question", "What is X?")])]] ++
        [Msg.tool "call_1" "record_feedback"
          (record_feedback "What is X?" "general" "medium" "" ⟨2025, 1, 2, 3, 4, 5⟩ []).1]) :=
  C5_feedback_defaults_roundtrip "p" _ ⟨2025, 1, 2, 3, 4, 5⟩ [] "hi" []
    "What is X?" "call_1" "" (ModelMessage.mk "Recorded!" []) rfl rfl

/-- C6 counterexample: a completed staged-variant run whose assistant
messages all carry the `"THINKING:"` tag.  `chat` returns that tagged
reasoning text itself as the reply (prefix intact), and `chat_with_history`
returns only the reply string and the updated history — no reasoning-steps
list accompanies the reply, and nothing strips the tagging prefix — so the
claim's "separate reasoning-steps list ... with the tagging prefix stripped"
is false at this run. -/
theorem C6_counterexample :
    EduZenReActAgent.chat_with_history
        [LMsg.human "hi", LMsg.ai "THINKING: step one" [],
         LMsg.ai "THINKING: step two" []] "hi" [] =
      ("THINKING: step two", [Turn.mk "hi" "THINKING: step two"]) ∧
    strStartsWith "THINKING: step two" "THINKING:" = true := by
  exact ⟨by decide, by decide⟩

/-- C6 amended: in the staged variant, whenever the run's final message is
an assistant message and some assistant message is not tagged as a reasoning
trace, the returned reply equals the content of the latest non-tagged
assistant message; `chat_with_history` returns only that reply together with
the history extended by one turn — the engine returns no reasoning-steps
list, and reasoning traces are neither collected nor prefix-stripped. -/
theorem C6_final_reply_selection (result_messages : List LMsg) (message : String)
    (history : List Turn) (c c' : String) (tcs tcs' : List ToolCall)
    (hlast : result_messages.getLast? = some (LMsg.ai c tcs))
    (hfind : result_messages.reverse.find? EduZenReActAgent.isSubstantiveAI =
      some (LMsg.ai c' tcs')) :
    EduZenReActAgent.chatReply result_messages = c' ∧
    EduZenReActAgent.chat_with_history result_messages message history =
      (c', history ++ [Turn.mk message c']) := by
  have hreply : EduZenReActAgent.chatReply result_messages = c' := by
    unfold EduZenReActAgent.chatReply
    rw [hlast]
    by_cases hthink : strStartsWith c "THINKING:" = true
    · simp only [hthink, if_true, hfind]
    · have hfalse : strStartsWith c "THINKING:" = false := by simpa using hthink
      simp only [hfalse, Bool.false_eq_true, if_false]
      have hrev : result_messages.reverse.head? = some (LMsg.ai c tcs) := by
        rw [List.head?_reverse, hlast]
      cases hb : result_messages.reverse with
      | nil => rw [hb] at hrev; exact Option.noConfusion hrev
      | cons x xs =>
          rw [hb] at hrev hfind
          have hx : x = LMsg.ai c tcs := by injection hrev
          subst hx
          have hp : EduZenReActAgent.isSubstantiveAI (LMsg.ai c tcs) = true := by
            simp [EduZenReActAgent.isSubstantiveAI, hfalse]
          rw [List.find?_cons_of_pos _ hp] at hfind
          have h2 : LMsg.ai c tcs = LMsg.ai c' tcs' := by injection hfind
          injection h2
  refine ⟨hreply, ?_⟩
  unfold EduZenReActAgent.chat_with_history
  rw [hreply]

/-- Witness for C6 amended: a run with two reasoning traces and one tool
cycle whose final reply is the last non-tagged assistant message. -/
theorem C6_final_reply_selection_witness :
    EduZenReActAgent.chatReply
      [LMsg.human "hi",
       LMsg.ai "THINKING: the user wants to record feedback" [],
       LMsg.ai "" [ToolCall.mk "call_1"
         (ToolFunction.mk "record_feedback" [("user_question", "What is X?")])],
       LMsg.toolResult "saved",
       LMsg.ai "THINKING: now summarize" [],
       LMsg.ai "All done!" []] = "All done!" ∧
    EduZenReActAgent.chat_with_history
      [LMsg.human "hi",
       LMsg.ai "THINKING: the user wants to record feedback" [],
       LMsg.ai "" [ToolCall.mk "call_1"
         (ToolFunction.mk "record_feedback" [("user_question", "What is X?")])],
       LMsg.toolResult "saved",
       LMsg.ai "THINKING: now summarize" [],
       LMsg.ai "All done!" []] "hi" [] =
      ("All done!", ([] : List Turn) ++ [Turn.mk "hi" "All done!"]) :=
  C6_final_reply_selection _ "hi" [] "All done!" "All done!" [] []
    (by decide) (by decide)

/-- C7: the claim matches the source's documented intent ("Clear
conversation history for a specific thread"), but the body of
`clear_history` only returns `True` — its own comment records that clearing
is unimplemented — so after two calls both report success yet a thread with
a stored turn still holds its messages: the history is not left empty. -/
theorem C7_clear_history_not_clearing :
    (EduZenReActAgent.clear_history
        [("default", [LMsg.human "hi", LMsg.ai "Hello!" []])] "default").1 = true ∧
    EduZenReActAgent.clear_history
        ((EduZenReActAgent.clear_history
          [("default", [LMsg.human "hi", LMsg.ai "Hello!" []])] "default").2) "default" =
      (true, [("default", [LMsg.human "hi", LMsg.ai "Hello!" []])]) ∧
    ((EduZenReActAgent.clear_history
        ((EduZenReActAgent.clear_history
          [("default", [LMsg.human "hi", LMsg.ai "Hello!" []])] "default").2)
        "default").2.lookup "default") ≠ some [] := by
  refine ⟨rfl, rfl, by decide⟩

/-- C8: a model-requested tool call whose function name is not a key of
`AVAILABLE_FUNCTIONS` is silently skipped: no handler runs (the store is
unchanged), no tool-result message is produced for it, no error is raised,
and the turn proceeds — the second completion sees only the built messages
plus the assistant message, and its content becomes the reply. -/
theorem C8_unknown_tool_ignored (system_prompt : String) (create : Completion)
    (now : DateTime) (st : Store) (message : String) (history : List Turn)
    (content0 tcid fname : String) (args : Dict) (final : ModelMessage)
    (hname : fname ∉ AVAILABLE_FUNCTIONS_names)
    (h1 : create true (EduZenAgent.buildMessages system_prompt history message) =
      Except.ok (ModelMessage.mk content0 [ToolCall.mk tcid (ToolFunction.mk fname args)]))
    (h2 : create false (EduZenAgent.buildMessages system_prompt history message ++
        [Msg.assistant content0 [ToolCall.mk tcid (ToolFunction.mk fname args)]] ++ []) =
      Except.ok final) :
    EduZenAgent.processToolCalls now st
      [ToolCall.mk tcid (ToolFunction.mk fname args)] = Except.ok ([], st) ∧
    EduZenAgent.chat system_prompt create now st message history =
      (final.content, history ++ [Turn.mk message final.content], st) := by
  have hcontains : AVAILABLE_FUNCTIONS_names.contains fname = false := by
    simpa using hname
  have hproc : EduZenAgent.processToolCalls now st
      [ToolCall.mk tcid (ToolFunction.mk fname args)] = Except.ok ([], st) := by
    unfold EduZenAgent.processToolCalls
    simp only [hcontains, Bool.false_eq_true, if_false]
    rfl
  refine ⟨hproc, ?_⟩
  unfold EduZenAgent.chat EduZenAgent.chatTry
  simp only [h1, hproc, List.isEmpty_cons, Bool.false_eq_true, if_false, h2]

/-- Witness for C8 with a concrete undeclared tool name. -/
theorem C8_unknown_tool_ignored_witness :
    EduZenAgent.processToolCalls ⟨2025, 1, 2, 3, 4, 5⟩ []
      [ToolCall.mk "call_9" (ToolFunction.mk "reboot_server" [("x", "1")])] =
      Except.ok ([], []) ∧
    EduZenAgent.chat "p"
      (fun withTools _ => if withTools then
        Except.ok (ModelMessage.mk "ok"
          [ToolCall.mk "call_9" (ToolFunction.mk "reboot_server" [("x", "1")])])
      else Except.ok (ModelMessage.mk "done" []))
      ⟨2025, 1, 2, 3, 4, 5⟩ [] "hi" [] =
      ((ModelMessage.mk "done" []).content,
        ([] : List Turn) ++ [Turn.mk "hi" (ModelMessage.mk "done" []).content], []) :=
  C8_unknown_tool_ignored "p" _ ⟨2025, 1, 2, 3, 4, 5⟩ [] "hi" [] "ok" "call_9"
    "reboot_server" [("x", "1")] (ModelMessage.mk "done" []) (by decide) rfl rfl

/-- C9: every record persisted by the three save functions carries a
timestamp assigned at write time in "YYYY-MM-DD HH:MM:SS" format — the last
stored row's timestamp field equals the formatted write instant, it is
never empty, and a caller-supplied timestamp value is overridden (the
fourth conjunct writes a record that already carries a timestamp value `v`
and the stored row still holds the write-time value). -/
theorem C9_timestamp_write_time (data : Dict) (v : String) (now : DateTime)
    (fs : Store) :
    (∃ tbl, ((save_student_lead data now fs).2.lookup "students_leads.xlsx") = some tbl ∧
      (tbl.rows.getLast?.bind fun r => r.lookup "timestamp") = some (formatTimestamp now)) ∧
    (∃ tbl, ((save_workshop_lead data now fs).2.lookup "workshops_leads.xlsx") = some tbl ∧
      (tbl.rows.getLast?.bind fun r => r.lookup "timestamp") = some (formatTimestamp now)) ∧
    (∃ tbl, ((save_feedback data now fs).2.lookup "feedback.xlsx") = some tbl ∧
      (tbl.rows.getLast?.bind fun r => r.lookup "timestamp") = some (formatTimestamp now)) ∧
    (∃ tbl, ((save_student_lead (dictSet data "timestamp" v) now fs).2.lookup
        "students_leads.xlsx") = some tbl ∧
      (tbl.rows.getLast?.bind fun r => r.lookup "timestamp") = some (formatTimestamp now)) ∧
    formatTimestamp now ≠ "" := by
  refine ⟨?_, ?_, ?_, ?_, formatTimestamp_ne_empty now⟩
  · obtain ⟨tbl, h1, h2⟩ := saveRecordToFile_lookup "students_leads.xlsx" data now fs
    exact ⟨tbl, h1, by simp [h2, dictSet_lookup_self]⟩
  · obtain ⟨tbl, h1, h2⟩ := saveRecordToFile_lookup "workshops_leads.xlsx" data now fs
    exact ⟨tbl, h1, by simp [h2, dictSet_lookup_self]⟩
  · obtain ⟨tbl, h1, h2⟩ := saveRecordToFile_lookup "feedback.xlsx" data now fs
    exact ⟨tbl, h1, by simp [h2, dictSet_lookup_self]⟩
  · obtain ⟨tbl, h1, h2⟩ := saveRecordToFile_lookup "students_leads.xlsx"
      (dictSet data "timestamp" v) now fs
    exact ⟨tbl, h1, by simp [h2, dictSet_lookup_self]⟩

/-- C10: the history update of the direct variant's `chat` does not mutate
the caller's list — `history.copy()` allocates a fresh cell, `append`
mutates only that cell, so the caller's reference still holds the original
turns while the returned reference holds them plus the one new turn; and on
the pure level both paths of `chat` return `history ++ [new turn]`. -/
theorem C10_history_not_mutated (h : PyHeap) (r : Nat)
    (message agent_response : String) (hr : r < h.cells.length) :
    (EduZenAgent.updateHistory h r message agent_response).2 ≠ r ∧
    (EduZenAgent.updateHistory h r message agent_response).1.get r = h.get r ∧
    (EduZenAgent.updateHistory h r message agent_response).1.get
        (EduZenAgent.updateHistory h r message agent_response).2 =
      h.get r ++ [Turn.mk message agent_response] ∧
    (∀ (sp : String) (create : Completion) (now : DateTime) (st : Store),
      (EduZenAgent.chat sp create now st message (h.get r)).2.1 =
        h.get r ++ [Turn.mk message
          (EduZenAgent.chat sp create now st message (h.get r)).1]) := by
  refine ⟨Nat.ne_of_gt hr, ?_, ?_, ?_⟩
  · show (((h.cells ++ [h.get r]).set h.cells.length
        ((PyHeap.mk (h.cells ++ [h.get r])).get h.cells.length ++
          [Turn.mk message agent_response]))[r]?).getD [] = h.get r
    rw [List.getElem?_set_ne (Nat.ne_of_gt hr), List.getElem?_append_left hr]
    rfl
  · show (((h.cells ++ [h.get r]).set h.cells.length
        ((PyHeap.mk (h.cells ++ [h.get r])).get h.cells.length ++
          [Turn.mk message agent_response]))[h.cells.length]?).getD [] =
      h.get r ++ [Turn.mk message agent_response]
    have hlen : h.cells.length < (h.cells ++ [h.get r]).length := by
      simp
    rw [List.getElem?_set_self hlen]
    show ((PyHeap.mk (h.cells ++ [h.get r])).get h.cells.length ++
        [Turn.mk message agent_response]) = _
    unfold PyHeap.get
    rw [List.getElem?_concat_length]
    rfl
  · intro sp create now st
    unfold EduZenAgent.chat
    cases EduZenAgent.chatTry sp create now st message (h.get r) with
    | ok v => rfl
    | error v => rfl

/-- Witness for C10 at a one-cell heap. -/
theorem C10_history_not_mutated_witness :
    (EduZenAgent.updateHistory (PyHeap.mk [[Turn.mk "u0" "a0"]]) 0 "hi" "yo").2 ≠ 0 ∧
    (EduZenAgent.updateHistory (PyHeap.mk [[Turn.mk "u0" "a0"]]) 0 "hi" "yo").1.get 0 =
      (PyHeap.mk [[Turn.mk "u0" "a0"]]).get 0 ∧
    (EduZenAgent.updateHistory (PyHeap.mk [[Turn.mk "u0" "a0"]]) 0 "hi" "yo").1.get
        (EduZenAgent.updateHistory (PyHeap.mk [[Turn.mk "u0" "a0"]]) 0 "hi" "yo").2 =
      (PyHeap.mk [[Turn.mk "u0" "a0"]]).get 0 ++ [Turn.mk "hi" "yo"] ∧
    (EduZenAgent.chat "p" (fun _ _ => Except.error "down") ⟨2025, 1, 2, 3, 4, 5⟩ []
        "hi" ((PyHeap.mk [[Turn.mk "u0" "a0"]]).get 0)).2.1 =
      (PyHeap.mk [[Turn.mk "u0" "a0"]]).get 0 ++ [Turn.mk "hi"
        (EduZenAgent.chat "p" (fun _ _ => Except.error "down") ⟨2025, 1, 2, 3, 4, 5⟩ []
          "hi" ((PyHeap.mk [[Turn.mk "u0" "a0"]]).get 0)).1] := by
  obtain ⟨h1, h2, h3, h4⟩ := C10_history_not_mutated (PyHeap.mk [[Turn.mk "u0" "a0"]])
    0 "hi" "yo" (by decide)
  exact ⟨h1, h2, h3, h4 "p" (fun _ _ => Except.error "down") ⟨2025, 1, 2, 3, 4, 5⟩ []⟩
